import Mathlib

/-!
Verification of the routing and forwarding engine of the `router` program
(a multi-listener HTTP/WebSocket reverse proxy).

The definitions below are a shallow embedding of the program's route
matching, HTTP forwarding and WebSocket relay logic.  External
collaborators (the standard-library URL parser, the HTTP round trip to
the backend, the WebSocket dialer and upgrader, the peer connections)
appear as explicit function parameters, so the embedded handlers are
pure functions of the inbound request, the configured route list and
those collaborators.
-/

set_option autoImplicit false

namespace Router

/-- One `redirect` entry of the configuration: a path prefix, a target
host (empty means default) and a target port.  Mirrors `RedirectConfig`
in the source. -/
structure RedirectConfig where
  path : String
  host : String
  port : Int
deriving Repr, DecidableEq

/-- The fields of an inbound request that the handlers read:
`r.URL.Path`, `r.URL.RawQuery`, `r.Host`, `r.RemoteAddr` and the header
map (modelled as an association list). -/
structure Request where
  urlPath : String
  rawQuery : String
  host : String
  remoteAddr : String
  headers : List (String × String)
deriving Repr, DecidableEq

/-- A parsed URL as returned by the standard library's `url.Parse`:
scheme, authority (`host:port`), path and raw query. -/
structure URL where
  scheme : String
  host : String
  path : String
  rawQuery : String
deriving Repr, DecidableEq

/-- The outbound request handed to the reverse proxy's transport after
the `Director` ran: its URL fields, its `Host` field and its headers. -/
structure OutRequest where
  scheme : String
  urlHost : String
  urlPath : String
  rawQuery : String
  host : String
  headers : List (String × String)
deriving Repr, DecidableEq

/-- A backend response; only the status code matters for the properties
under verification. -/
structure Response where
  status : Nat
deriving Repr, DecidableEq

/-- The observable outcome of `handleHTTP`: the status written to the
client, the string passed to `url.Parse` when a target URL was built
(`none` when no route matched), and the outbound request handed to the
proxy transport (`none` when no forwarding happened). -/
structure HTTPResult where
  status : Nat
  targetURLString : Option String
  forwarded : Option OutRequest
deriving Repr, DecidableEq

/-- `strings.HasPrefix(s, pre)`: `pre` is a literal prefix of `s`.
Modelled character-wise on the strings' underlying character lists; on
valid UTF-8 data (Lean strings) this coincides with Go's byte-wise
prefix test, since UTF-8 is a prefix-preserving encoding. -/
def hasPrefix (s pre : String) : Bool :=
  pre.data.isPrefixOf s.data

/-- Host defaulting used by both handlers:
`host := route.Host; if len(host) == 0 { host = "localhost" }`. -/
def resolveHost (host : String) : String :=
  if host.length = 0 then "localhost" else host

/-- The string `fmt.Sprintf("http://%s:%d", host, port)` built by
`handleHTTP` before calling `url.Parse`. -/
def httpTargetString (host : String) (port : Int) : String :=
  "http://" ++ host ++ ":" ++ toString port

/-- The string `fmt.Sprintf("ws://%s:%d%s", host, port, r.URL.Path)`
built by `handleWebSocket` before dialing the backend. -/
def wsTargetString (host : String) (port : Int) (path : String) : String :=
  "ws://" ++ host ++ ":" ++ toString port ++ path

/-- `Header.Set`: replace any existing values of the key with the single
given value. -/
def setHeader (hs : List (String × String)) (k v : String) : List (String × String) :=
  (k, v) :: hs.filter (fun p => p.1 != k)

/-- `Header.Get`: first value stored for the key, if any. -/
def getHeader (hs : List (String × String)) (k : String) : Option String :=
  (hs.find? (fun p => p.1 == k)).map (fun p => p.2)

/-- `singleJoiningSlash` from `net/http/httputil`, used by the default
director of `NewSingleHostReverseProxy` to join the target path and the
request path: drop one of two adjacent slashes, insert a slash between
two non-slashes, otherwise plain concatenation. -/
def singleJoiningSlash (a b : String) : String :=
  if a.data.getLast? == some '/' then
    if b.data.head? == some '/' then a ++ String.mk (b.data.drop 1) else a ++ b
  else
    if b.data.head? == some '/' then a ++ b else a ++ "/" ++ b

/-- The default `Director` installed by
`httputil.NewSingleHostReverseProxy(target)`: it rewrites the outbound
URL's scheme and host to the target's, joins the target path with the
request path, and merges the target's raw query with the request's.
It does not touch the request's `Host` field or headers. -/
def defaultDirector (target : URL) (req : OutRequest) : OutRequest :=
  let req2 : OutRequest :=
    { req with
      scheme := target.scheme
      urlHost := target.host
      urlPath := singleJoiningSlash target.path req.urlPath }
  if target.rawQuery = "" ∨ req2.rawQuery = "" then
    { req2 with rawQuery := target.rawQuery ++ req2.rawQuery }
  else
    { req2 with rawQuery := target.rawQuery ++ "&" ++ req2.rawQuery }

/-- The `proxy.Director` override in `handleHTTP` (lines 200-216 of the
source): run the original director, then restore the inbound path, keep
the inbound raw query when it is nonempty, and set the three
`X-Forwarded-*` headers. -/
def director (r : Request) (target : URL) (req : OutRequest) : OutRequest :=
  let req2 := defaultDirector target req
  let req3 : OutRequest := { req2 with urlPath := r.urlPath }
  let req4 : OutRequest :=
    if r.rawQuery = "" then req3 else { req3 with rawQuery := r.rawQuery }
  { req4 with
    headers :=
      setHeader
        (setHeader
          (setHeader req4.headers "X-Forwarded-Host" req4.host)
          "X-Forwarded-Proto" "http")
        "X-Forwarded-For" r.remoteAddr }

/-- The outbound clone of the inbound request that the reverse proxy
hands to the `Director`: same URL path and query, same `Host` field and
headers as the inbound request. -/
def cloneRequest (r : Request) : OutRequest :=
  { scheme := ""
    urlHost := ""
    urlPath := r.urlPath
    rawQuery := r.rawQuery
    host := r.host
    headers := r.headers }

/-- `proxy.ServeHTTP`: build the outbound request through the director,
run the transport once; a transport error invokes the installed
`ErrorHandler`, which writes `http.StatusBadGateway` (502).  Returns the
response written to the client together with the outbound request. -/
def serveProxy (transport : OutRequest → Except String Response)
    (r : Request) (target : URL) : Response × OutRequest :=
  let outreq := director r target (cloneRequest r)
  match transport outreq with
  | Except.ok resp => (resp, outreq)
  | Except.error _ => ({ status := 502 }, outreq)

/-- The body of `handleHTTP`'s loop for a matched route: resolve the
host, build and parse the target URL (parse failure writes
`http.StatusInternalServerError`, 500), then run the reverse proxy. -/
def forwardHTTP (urlParse : String → Option URL)
    (transport : OutRequest → Except String Response)
    (r : Request) (route : RedirectConfig) : HTTPResult :=
  let host := resolveHost route.host
  let targetStr := httpTargetString host route.port
  match urlParse targetStr with
  | none => { status := 500, targetURLString := some targetStr, forwarded := none }
  | some targetURL =>
    let pr := serveProxy transport r targetURL
    { status := pr.1.status, targetURLString := some targetStr, forwarded := some pr.2 }

/-- `handleHTTP`: iterate the routes in configured order; the first
route whose `Path` is a string prefix of `r.URL.Path`
(`strings.HasPrefix`) is forwarded to; if none matches, `http.NotFound`
writes 404. -/
def handleHTTP (urlParse : String → Option URL)
    (transport : OutRequest → Except String Response)
    (r : Request) : List RedirectConfig → HTTPResult
  | [] => { status := 404, targetURLString := none, forwarded := none }
  | route :: rest =>
    if hasPrefix r.urlPath route.path then forwardHTTP urlParse transport r route
    else handleHTTP urlParse transport r rest

/-- The route-matching rule shared by both handlers, extracted: first
entry in configured order whose `Path` is a literal string prefix of the
request path. -/
def matchRoute : List RedirectConfig → String → Option RedirectConfig
  | [], _ => none
  | route :: rest, path =>
    if hasPrefix path route.path then some route else matchRoute rest path

/-- Observable events of `handleWebSocket`, in the order the handler
performs them: dialing the backend (with the URL string handed to
`websocket.DefaultDialer.Dial`), attempting the client upgrade
(`upgrader.Upgrade`), writing a response status, and entering the relay
loops. -/
inductive WSEvent where
  | dialAttempt (url : String)
  | upgradeAttempt
  | respond (status : Nat)
  | relayStart
deriving Repr, DecidableEq

/-- The body of `handleWebSocket`'s loop for a matched route: resolve
the host, build `ws://{host}:{port}{path}` and dial it; a dial failure
writes `http.StatusInternalServerError` (500) without upgrading; then
upgrade the client (failure also writes 500); on success both relay
loops run.  The collaborators are the dialer's outcome per URL and the
upgrade outcome. -/
def forwardWS (dialOK : String → Bool) (upgradeOK : Bool)
    (r : Request) (route : RedirectConfig) : List WSEvent :=
  let host := resolveHost route.host
  let wsURL := wsTargetString host route.port r.urlPath
  if dialOK wsURL then
    if upgradeOK then
      [WSEvent.dialAttempt wsURL, WSEvent.upgradeAttempt, WSEvent.relayStart]
    else
      [WSEvent.dialAttempt wsURL, WSEvent.upgradeAttempt, WSEvent.respond 500]
  else
    [WSEvent.dialAttempt wsURL, WSEvent.respond 500]

/-- `handleWebSocket`: iterate the routes in configured order; the first
route whose `Path` is a string prefix of `r.URL.Path` is relayed to; if
none matches, `http.NotFound` writes 404.  Returns the ordered trace of
observable events. -/
def handleWebSocket (dialOK : String → Bool) (upgradeOK : Bool)
    (r : Request) : List RedirectConfig → List WSEvent
  | [] => [WSEvent.respond 404]
  | route :: rest =>
    if hasPrefix r.urlPath route.path then forwardWS dialOK upgradeOK r route
    else handleWebSocket dialOK upgradeOK r rest

/-- The URL of the first backend dial attempt in a trace, if any. -/
def wsSelectedURL : List WSEvent → Option String
  | [] => none
  | WSEvent.dialAttempt u :: _ => some u
  | _ :: rest => wsSelectedURL rest

/-- One WebSocket frame as read by `ReadMessage` and written by
`WriteMessage`: the message type (text or binary) and the payload
bytes. -/
structure Frame where
  messageType : Int
  payload : List Nat
deriving Repr, DecidableEq

/-- One direction of the relay (both loops at lines 271-283 and 285-295
of the source have this shape): repeatedly read a frame from one
connection and write it, with the same message type and payload, to the
other; a read failure or close ends the incoming stream (modelled as the
end of the list), and a write failure breaks the loop.  Returns the
frames actually delivered, in order. -/
def forwardFrames (writeOK : Frame → Bool) : List Frame → List Frame
  | [] => []
  | f :: rest => if writeOK f then f :: forwardFrames writeOK rest else []

/-- A relay session: the client-to-backend goroutine and the
backend-to-client loop, each independently forwarding its incoming
frames.  Returns (frames delivered to the backend, frames delivered to
the client). -/
def relaySession (clientFrames serverFrames : List Frame)
    (writeToServer writeToClient : Frame → Bool) : List Frame × List Frame :=
  (forwardFrames writeToServer clientFrames, forwardFrames writeToClient serverFrames)

/-! Concrete collaborators used to exercise the handlers on concrete
inputs: a parser that always succeeds with an origin-only URL, a parser
that always fails, a transport that always answers 200, a transport that
always fails, and dialers that always succeed or always fail. -/

/-- A stand-in for `url.Parse` on well-formed `http://host:port` origin
strings: strip the scheme, keep the authority, empty path and query. -/
def hostPortParse : String → Option URL :=
  fun s => some { scheme := "http", host := String.mk (s.data.drop 7), path := "", rawQuery := "" }

/-- A URL parser that fails on every input. -/
def failParse : String → Option URL := fun _ => none

/-- A transport whose backend always answers 200. -/
def okTransport : OutRequest → Except String Response :=
  fun _ => Except.ok { status := 200 }

/-- A transport that always fails at the network level. -/
def downTransport : OutRequest → Except String Response :=
  fun _ => Except.error "connection refused"

/-- A dialer that reaches every backend. -/
def dialAlways : String → Bool := fun _ => true

/-- A dialer that reaches no backend. -/
def dialNever : String → Bool := fun _ => false

/-- A connection on which every write succeeds. -/
def writeAlways : Frame → Bool := fun _ => true

/-! Helper lemmas relating the two handlers to the extracted matching
rule `matchRoute`, and computing the fields of the forwarded request. -/

theorem handleHTTP_of_no_match (urlParse : String → Option URL)
    (transport : OutRequest → Except String Response) (r : Request) :
    ∀ routes : List RedirectConfig,
      matchRoute routes r.urlPath = none →
      handleHTTP urlParse transport r routes =
        { status := 404, targetURLString := none, forwarded := none }
  | [], _ => by simp [handleHTTP]
  | a :: rest, h => by
    cases hp : hasPrefix r.urlPath a.path
    · simp [matchRoute, hp] at h
      simpa [handleHTTP, hp] using handleHTTP_of_no_match urlParse transport r rest h
    · simp [matchRoute, hp] at h

theorem handleHTTP_of_match (urlParse : String → Option URL)
    (transport : OutRequest → Except String Response) (r : Request) :
    ∀ (routes : List RedirectConfig) (route : RedirectConfig),
      matchRoute routes r.urlPath = some route →
      handleHTTP urlParse transport r routes = forwardHTTP urlParse transport r route
  | [], _, h => by simp [matchRoute] at h
  | a :: rest, route, h => by
    cases hp : hasPrefix r.urlPath a.path
    · simp [matchRoute, hp] at h
      simpa [handleHTTP, hp] using handleHTTP_of_match urlParse transport r rest route h
    · simp [matchRoute, hp] at h
      subst h
      simp [handleHTTP, hp]

theorem handleWebSocket_of_no_match (dialOK : String → Bool) (upgradeOK : Bool)
    (r : Request) :
    ∀ routes : List RedirectConfig,
      matchRoute routes r.urlPath = none →
      handleWebSocket dialOK upgradeOK r routes = [WSEvent.respond 404]
  | [], _ => by simp [handleWebSocket]
  | a :: rest, h => by
    cases hp : hasPrefix r.urlPath a.path
    · simp [matchRoute, hp] at h
      simpa [handleWebSocket, hp] using handleWebSocket_of_no_match dialOK upgradeOK r rest h
    · simp [matchRoute, hp] at h

theorem handleWebSocket_of_match (dialOK : String → Bool) (upgradeOK : Bool)
    (r : Request) :
    ∀ (routes : List RedirectConfig) (route : RedirectConfig),
      matchRoute routes r.urlPath = some route →
      handleWebSocket dialOK upgradeOK r routes = forwardWS dialOK upgradeOK r route
  | [], _, h => by simp [matchRoute] at h
  | a :: rest, route, h => by
    cases hp : hasPrefix r.urlPath a.path
    · simp [matchRoute, hp] at h
      simpa [handleWebSocket, hp] using handleWebSocket_of_match dialOK upgradeOK r rest route h
    · simp [matchRoute, hp] at h
      subst h
      simp [handleWebSocket, hp]

theorem serveProxy_snd (transport : OutRequest → Except String Response)
    (r : Request) (target : URL) :
    (serveProxy transport r target).2 = director r target (cloneRequest r) := by
  cases h : transport (director r target (cloneRequest r)) <;> simp [serveProxy, h]

theorem director_urlPath (r : Request) (target : URL) (req : OutRequest) :
    (director r target req).urlPath = r.urlPath := by
  by_cases hq : r.rawQuery = "" <;> simp [director, hq]

theorem director_host (r : Request) (target : URL) (req : OutRequest) :
    (director r target req).host = req.host := by
  by_cases hq : r.rawQuery = "" <;>
    simp [director, defaultDirector, hq] <;> split <;> rfl

theorem director_rawQuery (r : Request) (target : URL) (req : OutRequest)
    (hq : req.rawQuery = r.rawQuery) (ht : target.rawQuery = "") :
    (director r target req).rawQuery = r.rawQuery := by
  by_cases h : r.rawQuery = "" <;> simp [director, defaultDirector, hq, ht, h]

theorem getHeader_setHeader_same (hs : List (String × String)) (k v : String) :
    getHeader (setHeader hs k v) k = some v := by
  simp [getHeader, setHeader, List.find?]

theorem find?_filter_ne (k1 k2 : String) (h : ¬ k1 = k2) :
    ∀ hs : List (String × String),
      List.find? (fun p => p.1 == k1) (List.filter (fun p => p.1 != k2) hs) =
        List.find? (fun p => p.1 == k1) hs
  | [] => rfl
  | p :: rest => by
    by_cases hk : p.1 = k2
    · have hb : (p.1 == k1) = false := by
        simp [hk]
        exact fun e => h e.symm
      have hf : ¬ (p.1 != k2) = true := by simp [hk]
      rw [List.filter_cons, if_neg hf]
      simp only [List.find?_cons, hb]
      exact find?_filter_ne k1 k2 h rest
    · have hf : (p.1 != k2) = true := by simpa using hk
      rw [List.filter_cons, if_pos hf]
      cases h2 : p.1 == k1
      · simp only [List.find?_cons, h2]
        exact find?_filter_ne k1 k2 h rest
      · simp only [List.find?_cons, h2]

theorem getHeader_setHeader_ne (hs : List (String × String)) (k1 k2 v : String)
    (h : ¬ k1 = k2) :
    getHeader (setHeader hs k2 v) k1 = getHeader hs k1 := by
  have hb : (k2 == k1) = false := by
    simp
    exact fun e => h e.symm
  unfold getHeader setHeader
  simp only [List.find?_cons, hb]
  rw [find?_filter_ne k1 k2 h hs]

theorem matchRoute_first_aux (p : String) :
    ∀ (routes : List RedirectConfig) (e : RedirectConfig),
      matchRoute routes p = some e ↔
        ∃ pre post : List RedirectConfig,
          routes = pre ++ e :: post ∧ hasPrefix p e.path = true ∧
            ∀ e2 ∈ pre, hasPrefix p e2.path = false
  | [], e => by
    simp only [matchRoute]
    constructor
    · intro h
      cases h
    · rintro ⟨pre, post, hroutes, -, -⟩
      cases pre <;> simp at hroutes
  | a :: rest, e => by
    cases hp : hasPrefix p a.path
    · simp only [matchRoute, hp, Bool.false_eq_true, if_false]
      rw [matchRoute_first_aux p rest e]
      constructor
      · rintro ⟨pre, post, hrest, hm, hall⟩
        refine ⟨a :: pre, post, by simp [hrest], hm, ?_⟩
        intro e2 he2
        rcases List.mem_cons.mp he2 with he2 | he2
        · rw [he2]
          exact hp
        · exact hall e2 he2
      · rintro ⟨pre, post, hroutes, hm, hall⟩
        cases pre with
        | nil =>
          simp at hroutes
          rcases hroutes with ⟨hae, -⟩
          rw [hae, hm] at hp
          exact Bool.noConfusion hp
        | cons b pre2 =>
          simp at hroutes
          rcases hroutes with ⟨-, hrest⟩
          exact ⟨pre2, post, hrest, hm, fun e2 he2 => hall e2 (List.mem_cons_of_mem b he2)⟩
    · simp only [matchRoute, hp, if_true]
      constructor
      · intro h
        have hae : a = e := by
          injection h
        refine ⟨[], rest, by simp [hae], ?_, by simp⟩
        rw [← hae]
        exact hp
      · rintro ⟨pre, post, hroutes, hm, hall⟩
        cases pre with
        | nil =>
          simp at hroutes
          rcases hroutes with ⟨hae, -⟩
          rw [hae]
        | cons b pre2 =>
          simp at hroutes
          rcases hroutes with ⟨hab, -⟩
          have hb := hall b (List.mem_cons_self b pre2)
          rw [← hab, hp] at hb
          exact Bool.noConfusion hb

theorem handleHTTP_targetURLString (urlParse : String → Option URL)
    (transport : OutRequest → Except String Response) (r : Request)
    (routes : List RedirectConfig) :
    (handleHTTP urlParse transport r routes).targetURLString =
      (matchRoute routes r.urlPath).map
        (fun e => httpTargetString (resolveHost e.host) e.port) := by
  cases hm : matchRoute routes r.urlPath with
  | none =>
    rw [handleHTTP_of_no_match urlParse transport r routes hm]
    rfl
  | some route =>
    rw [handleHTTP_of_match urlParse transport r routes route hm]
    simp only [forwardHTTP, Option.map_some]
    cases hu : urlParse (httpTargetString (resolveHost route.host) route.port) <;> simp [hu]

theorem wsSelectedURL_forwardWS (dialOK : String → Bool) (upgradeOK : Bool)
    (r : Request) (route : RedirectConfig) :
    wsSelectedURL (forwardWS dialOK upgradeOK r route) =
      some (wsTargetString (resolveHost route.host) route.port r.urlPath) := by
  simp only [forwardWS]
  split
  · split <;> rfl
  · rfl

theorem handleWebSocket_selectedURL (dialOK : String → Bool) (upgradeOK : Bool)
    (r : Request) (routes : List RedirectConfig) :
    wsSelectedURL (handleWebSocket dialOK upgradeOK r routes) =
      (matchRoute routes r.urlPath).map
        (fun e => wsTargetString (resolveHost e.host) e.port r.urlPath) := by
  cases hm : matchRoute routes r.urlPath with
  | none =>
    rw [handleWebSocket_of_no_match dialOK upgradeOK r routes hm]
    rfl
  | some route =>
    rw [handleWebSocket_of_match dialOK upgradeOK r routes route hm,
      wsSelectedURL_forwardWS]
    rfl

theorem forwardHTTP_forwarded_shape (urlParse : String → Option URL)
    (transport : OutRequest → Except String Response) (r : Request)
    (route : RedirectConfig) (out : OutRequest)
    (h : (forwardHTTP urlParse transport r route).forwarded = some out) :
    ∃ s u, urlParse s = some u ∧ out = director r u (cloneRequest r) := by
  simp only [forwardHTTP] at h
  cases hu : urlParse (httpTargetString (resolveHost route.host) route.port) with
  | none =>
    rw [hu] at h
    cases h
  | some u =>
    rw [hu] at h
    simp at h
    exact ⟨httpTargetString (resolveHost route.host) route.port, u, hu,
      by rw [← h, serveProxy_snd]⟩

theorem handleHTTP_forwarded_shape (urlParse : String → Option URL)
    (transport : OutRequest → Except String Response) (r : Request)
    (routes : List RedirectConfig) (out : OutRequest)
    (h : (handleHTTP urlParse transport r routes).forwarded = some out) :
    ∃ s u, urlParse s = some u ∧ out = director r u (cloneRequest r) := by
  cases hm : matchRoute routes r.urlPath with
  | none =>
    rw [handleHTTP_of_no_match urlParse transport r routes hm] at h
    cases h
  | some route =>
    rw [handleHTTP_of_match urlParse transport r routes route hm] at h
    exact forwardHTTP_forwarded_shape urlParse transport r route out h

theorem director_headers (r : Request) (target : URL) (req : OutRequest) :
    (director r target req).headers =
      setHeader
        (setHeader (setHeader req.headers "X-Forwarded-Host" req.host)
          "X-Forwarded-Proto" "http")
        "X-Forwarded-For" r.remoteAddr := by
  by_cases hq : r.rawQuery = "" <;>
    simp [director, defaultDirector, hq] <;> split <;> rfl

theorem forwardFrames_of_all_ok (writeOK : Frame → Bool) :
    ∀ frames : List Frame, (∀ f ∈ frames, writeOK f = true) →
      forwardFrames writeOK frames = frames
  | [], _ => rfl
  | f :: rest, h => by
    simp only [forwardFrames, h f (List.mem_cons_self f rest), if_true]
    rw [forwardFrames_of_all_ok writeOK rest (fun g hg => h g (List.mem_cons_of_mem f hg))]

theorem handleWebSocket_rawQuery_irrelevant (dialOK : String → Bool)
    (upgradeOK : Bool) (r : Request) (q : String) :
    ∀ routes : List RedirectConfig,
      handleWebSocket dialOK upgradeOK { r with rawQuery := q } routes =
        handleWebSocket dialOK upgradeOK r routes
  | [] => rfl
  | a :: rest => by
    cases hp : hasPrefix r.urlPath a.path <;>
      simp [handleWebSocket, forwardWS, hp,
        handleWebSocket_rawQuery_irrelevant dialOK upgradeOK r q rest]

theorem resolveHost_of_ne (h : String) (hne : ¬ h = "") : resolveHost h = h := by
  rw [resolveHost, if_neg]
  intro hlen
  apply hne
  cases h with
  | mk data =>
    cases data with
    | nil => rfl
    | cons c cs => simp [String.length] at hlen

/-! The claims. -/

/-- C1: for every route list and request path, the routing lookup used
by both the HTTP and the WebSocket handler selects the first entry in
configured order whose `pathPrefix` is a literal string-prefix of the
path (not the longest match): the lookup returns `e` exactly when the
route list splits as `pre ++ e :: post` with `e` matching and nothing in
`pre` matching; both handlers build their target from that entry; and on
routes `[{prefix "/a", port 1}, {prefix "/ab", port 2}]` the path
`/ab/x` is routed to port 1. -/
theorem C1_first_match_wins :
    (∀ (routes : List RedirectConfig) (p : String) (e : RedirectConfig),
        matchRoute routes p = some e ↔
          ∃ pre post : List RedirectConfig,
            routes = pre ++ e :: post ∧ hasPrefix p e.path = true ∧
              ∀ e2 ∈ pre, hasPrefix p e2.path = false) ∧
    (∀ (urlParse : String → Option URL)
        (transport : OutRequest → Except String Response)
        (r : Request) (routes : List RedirectConfig),
        (handleHTTP urlParse transport r routes).targetURLString =
          (matchRoute routes r.urlPath).map
            (fun e => httpTargetString (resolveHost e.host) e.port)) ∧
    (∀ (dialOK : String → Bool) (upgradeOK : Bool) (r : Request)
        (routes : List RedirectConfig),
        wsSelectedURL (handleWebSocket dialOK upgradeOK r routes) =
          (matchRoute routes r.urlPath).map
            (fun e => wsTargetString (resolveHost e.host) e.port r.urlPath)) ∧
    matchRoute [⟨"/a", "", 1⟩, ⟨"/ab", "", 2⟩] "/ab/x" = some ⟨"/a", "", 1⟩ :=
  ⟨fun routes p e => matchRoute_first_aux p routes e,
   handleHTTP_targetURLString,
   handleWebSocket_selectedURL,
   by decide⟩

/-- C1 exercised at a concrete input: with routes `/a` before `/ab`,
the request path `/ab/x` selects the `/a` entry (port 1) in both
handlers. -/
theorem C1_first_match_wins_witness :
    (handleHTTP hostPortParse okTransport
        { urlPath := "/ab/x", rawQuery := "", host := "h", remoteAddr := "a", headers := [] }
        [⟨"/a", "", 1⟩, ⟨"/ab", "", 2⟩]).targetURLString =
      some "http://localhost:1" ∧
    wsSelectedURL
        (handleWebSocket dialAlways true
          { urlPath := "/ab/x", rawQuery := "", host := "h", remoteAddr := "a", headers := [] }
          [⟨"/a", "", 1⟩, ⟨"/ab", "", 2⟩]) =
      some "ws://localhost:1/ab/x" := by
  have h := C1_first_match_wins
  refine ⟨?_, ?_⟩
  · rw [h.2.1 hostPortParse okTransport
      { urlPath := "/ab/x", rawQuery := "", host := "h", remoteAddr := "a", headers := [] }
      [⟨"/a", "", 1⟩, ⟨"/ab", "", 2⟩]]
    decide
  · rw [h.2.2.1 dialAlways true
      { urlPath := "/ab/x", rawQuery := "", host := "h", remoteAddr := "a", headers := [] }
      [⟨"/a", "", 1⟩, ⟨"/ab", "", 2⟩]]
    decide

/-- C2: a request (HTTP or WebSocket upgrade) whose path matches no
route entry gets status exactly 404, no target URL is built, no outbound
request reaches the proxy transport, and no backend dial is attempted
(the WebSocket trace is just the 404 response). -/
theorem C2_no_match_404_no_forward (urlParse : String → Option URL)
    (transport : OutRequest → Except String Response)
    (dialOK : String → Bool) (upgradeOK : Bool) (r : Request)
    (routes : List RedirectConfig)
    (h : matchRoute routes r.urlPath = none) :
    handleHTTP urlParse transport r routes =
      { status := 404, targetURLString := none, forwarded := none } ∧
    handleWebSocket dialOK upgradeOK r routes = [WSEvent.respond 404] :=
  ⟨handleHTTP_of_no_match urlParse transport r routes h,
   handleWebSocket_of_no_match dialOK upgradeOK r routes h⟩

/-- C2 exercised at a concrete input: path `/x` against the single
route `/api`. -/
theorem C2_no_match_404_no_forward_witness :
    matchRoute [⟨"/api", "", 1⟩] "/x" = none ∧
    (handleHTTP hostPortParse okTransport
        { urlPath := "/x", rawQuery := "", host := "h", remoteAddr := "a", headers := [] }
        [⟨"/api", "", 1⟩] =
      { status := 404, targetURLString := none, forwarded := none } ∧
     handleWebSocket dialAlways true
        { urlPath := "/x", rawQuery := "", host := "h", remoteAddr := "a", headers := [] }
        [⟨"/api", "", 1⟩] = [WSEvent.respond 404]) :=
  ⟨by decide,
   C2_no_match_404_no_forward hostPortParse okTransport dialAlways true
     { urlPath := "/x", rawQuery := "", host := "h", remoteAddr := "a", headers := [] }
     [⟨"/api", "", 1⟩] (by decide)⟩

/-- C3: whenever the HTTP handler forwards a request to the backend
(for any route list, any request and any transport, assuming the URL
parser yields an origin URL with an empty query, as `url.Parse` does on
`http://host:port` strings), the outbound request carries the original
inbound path unmodified — the matched prefix is not stripped — and the
original raw query verbatim. -/
theorem C3_path_and_query_preserved (urlParse : String → Option URL)
    (transport : OutRequest → Except String Response) (r : Request)
    (routes : List RedirectConfig) (out : OutRequest)
    (hparse : ∀ s u, urlParse s = some u → u.rawQuery = "")
    (h : (handleHTTP urlParse transport r routes).forwarded = some out) :
    out.urlPath = r.urlPath ∧ out.rawQuery = r.rawQuery := by
  rcases handleHTTP_forwarded_shape urlParse transport r routes out h with ⟨s, u, hu, hout⟩
  subst hout
  exact ⟨director_urlPath r u (cloneRequest r),
    director_rawQuery r u (cloneRequest r) rfl (hparse s u hu)⟩

/-- C3 exercised at a concrete input: `/api/x?q=1&r=2` matched by
prefix `/api` reaches the backend with path `/api/x` and query
`q=1&r=2`. -/
theorem C3_path_and_query_preserved_witness :
    (handleHTTP hostPortParse okTransport
        { urlPath := "/api/x", rawQuery := "q=1&r=2", host := "h", remoteAddr := "a",
          headers := [] }
        [⟨"/api", "", 9000⟩]).forwarded =
      some
        { scheme := "http", urlHost := "localhost:9000", urlPath := "/api/x",
          rawQuery := "q=1&r=2", host := "h",
          headers :=
            [("X-Forwarded-For", "a"), ("X-Forwarded-Proto", "http"),
             ("X-Forwarded-Host", "h")] } ∧
    (({ scheme := "http", urlHost := "localhost:9000", urlPath := "/api/x",
        rawQuery := "q=1&r=2", host := "h",
        headers :=
          [("X-Forwarded-For", "a"), ("X-Forwarded-Proto", "http"),
           ("X-Forwarded-Host", "h")] } : OutRequest).urlPath = "/api/x" ∧
      ({ scheme := "http", urlHost := "localhost:9000", urlPath := "/api/x",
         rawQuery := "q=1&r=2", host := "h",
         headers :=
           [("X-Forwarded-For", "a"), ("X-Forwarded-Proto", "http"),
            ("X-Forwarded-Host", "h")] } : OutRequest).rawQuery = "q=1&r=2") :=
  ⟨by decide,
   C3_path_and_query_preserved hostPortParse okTransport
     { urlPath := "/api/x", rawQuery := "q=1&r=2", host := "h", remoteAddr := "a",
       headers := [] }
     [⟨"/api", "", 9000⟩]
     { scheme := "http", urlHost := "localhost:9000", urlPath := "/api/x",
       rawQuery := "q=1&r=2", host := "h",
       headers :=
         [("X-Forwarded-For", "a"), ("X-Forwarded-Proto", "http"),
          ("X-Forwarded-Host", "h")] }
     (fun s u hu => by cases hu; rfl) (by decide)⟩

/-- C4: for a matched HTTP request, a failure of target-URL
construction yields status 500 with no outbound request ever handed to
the proxy transport, and a network-level transport error yields status
502 with exactly the one outbound request that was attempted; in both
cases the handler's outcome is this single response (no retry). -/
theorem C4_error_statuses (urlParse : String → Option URL)
    (transport : OutRequest → Except String Response) (r : Request)
    (routes : List RedirectConfig) (route : RedirectConfig)
    (hm : matchRoute routes r.urlPath = some route) :
    (urlParse (httpTargetString (resolveHost route.host) route.port) = none →
      handleHTTP urlParse transport r routes =
        { status := 500,
          targetURLString := some (httpTargetString (resolveHost route.host) route.port),
          forwarded := none }) ∧
    (∀ (u : URL) (msg : String),
      urlParse (httpTargetString (resolveHost route.host) route.port) = some u →
      transport (director r u (cloneRequest r)) = Except.error msg →
      handleHTTP urlParse transport r routes =
        { status := 502,
          targetURLString := some (httpTargetString (resolveHost route.host) route.port),
          forwarded := some (director r u (cloneRequest r)) }) := by
  constructor
  · intro hu
    rw [handleHTTP_of_match urlParse transport r routes route hm]
    simp only [forwardHTTP]
    rw [hu]
  · intro u msg hu htr
    rw [handleHTTP_of_match urlParse transport r routes route hm]
    simp only [forwardHTTP]
    rw [hu]
    simp only [serveProxy]
    rw [htr]

/-- C4 exercised at concrete inputs: a parser that rejects the target
origin produces a 500 with nothing forwarded; an unreachable backend
produces a 502. -/
theorem C4_error_statuses_witness :
    handleHTTP failParse okTransport
        { urlPath := "/api/x", rawQuery := "", host := "h", remoteAddr := "a", headers := [] }
        [⟨"/api", "", 9000⟩] =
      { status := 500, targetURLString := some "http://localhost:9000",
        forwarded := none } ∧
    (handleHTTP hostPortParse downTransport
        { urlPath := "/api/x", rawQuery := "", host := "h", remoteAddr := "a", headers := [] }
        [⟨"/api", "", 9000⟩]).status = 502 := by
  constructor
  · have h := (C4_error_statuses failParse okTransport
      { urlPath := "/api/x", rawQuery := "", host := "h", remoteAddr := "a", headers := [] }
      [⟨"/api", "", 9000⟩] ⟨"/api", "", 9000⟩ (by decide)).1 rfl
    rw [h]
    decide
  · have h := (C4_error_statuses hostPortParse downTransport
      { urlPath := "/api/x", rawQuery := "", host := "h", remoteAddr := "a", headers := [] }
      [⟨"/api", "", 9000⟩] ⟨"/api", "", 9000⟩ (by decide)).2
      { scheme := "http", host := "localhost:9000", path := "", rawQuery := "" }
      "connection refused" (by decide) rfl
    rw [h]

/-- C9: every request the HTTP forwarder hands to the transport has
`X-Forwarded-Host` set to the inbound request's `Host` value,
`X-Forwarded-Proto` set to the literal `"http"` and `X-Forwarded-For`
set to the client's remote address — whatever values those headers had
on the inbound request. -/
theorem C9_forwarded_headers (urlParse : String → Option URL)
    (transport : OutRequest → Except String Response) (r : Request)
    (routes : List RedirectConfig) (out : OutRequest)
    (h : (handleHTTP urlParse transport r routes).forwarded = some out) :
    getHeader out.headers "X-Forwarded-Host" = some r.host ∧
    getHeader out.headers "X-Forwarded-Proto" = some "http" ∧
    getHeader out.headers "X-Forwarded-For" = some r.remoteAddr := by
  rcases handleHTTP_forwarded_shape urlParse transport r routes out h with ⟨s, u, hu, hout⟩
  subst hout
  rw [director_headers]
  refine ⟨?_, ?_, ?_⟩
  · rw [getHeader_setHeader_ne _ _ _ _ (by decide),
      getHeader_setHeader_ne _ _ _ _ (by decide),
      getHeader_setHeader_same]
    rfl
  · rw [getHeader_setHeader_ne _ _ _ _ (by decide), getHeader_setHeader_same]
  · rw [getHeader_setHeader_same]

/-- C9 exercised at a concrete input whose inbound request already
carries spoofed `X-Forwarded-*` headers: all three are overwritten. -/
theorem C9_forwarded_headers_witness :
    (handleHTTP hostPortParse okTransport
        { urlPath := "/api/x", rawQuery := "", host := "inbound.example",
          remoteAddr := "10.0.0.9:4242",
          headers :=
            [("X-Forwarded-Host", "spoofed"), ("X-Forwarded-For", "spoofed"),
             ("X-Forwarded-Proto", "https")] }
        [⟨"/api", "", 9000⟩]).forwarded =
      some
        { scheme := "http", urlHost := "localhost:9000", urlPath := "/api/x",
          rawQuery := "", host := "inbound.example",
          headers :=
            [("X-Forwarded-For", "10.0.0.9:4242"), ("X-Forwarded-Proto", "http"),
             ("X-Forwarded-Host", "inbound.example")] } ∧
    (getHeader
        [("X-Forwarded-For", "10.0.0.9:4242"), ("X-Forwarded-Proto", "http"),
         ("X-Forwarded-Host", "inbound.example")] "X-Forwarded-Host" =
        some "inbound.example" ∧
      getHeader
        [("X-Forwarded-For", "10.0.0.9:4242"), ("X-Forwarded-Proto", "http"),
         ("X-Forwarded-Host", "inbound.example")] "X-Forwarded-Proto" = some "http" ∧
      getHeader
        [("X-Forwarded-For", "10.0.0.9:4242"), ("X-Forwarded-Proto", "http"),
         ("X-Forwarded-Host", "inbound.example")] "X-Forwarded-For" =
        some "10.0.0.9:4242") :=
  ⟨by decide,
   C9_forwarded_headers hostPortParse okTransport
     { urlPath := "/api/x", rawQuery := "", host := "inbound.example",
       remoteAddr := "10.0.0.9:4242",
       headers :=
         [("X-Forwarded-Host", "spoofed"), ("X-Forwarded-For", "spoofed"),
          ("X-Forwarded-Proto", "https")] }
     [⟨"/api", "", 9000⟩]
     { scheme := "http", urlHost := "localhost:9000", urlPath := "/api/x",
       rawQuery := "", host := "inbound.example",
       headers :=
         [("X-Forwarded-For", "10.0.0.9:4242"), ("X-Forwarded-Proto", "http"),
          ("X-Forwarded-Host", "inbound.example")] }
     (by decide)⟩

/-- C5: in a relay session, each direction independently delivers every
frame read from its source to its destination with identical message
type (text or binary) and byte-identical payload, in FIFO order as
received, with no frame dropped, coalesced or reordered, as long as
every write in that direction succeeds (both loops run without
error). -/
theorem C5_relay_lossless (clientFrames serverFrames : List Frame)
    (writeToServer writeToClient : Frame → Bool)
    (hc : ∀ f ∈ clientFrames, writeToServer f = true)
    (hs : ∀ f ∈ serverFrames, writeToClient f = true) :
    relaySession clientFrames serverFrames writeToServer writeToClient =
      (clientFrames, serverFrames) := by
  unfold relaySession
  rw [forwardFrames_of_all_ok writeToServer clientFrames hc,
    forwardFrames_of_all_ok writeToClient serverFrames hs]

/-- C5 exercised: a text frame and a binary frame from the client, a
binary frame from the backend, all relayed unchanged. -/
theorem C5_relay_lossless_witness :
    relaySession [Frame.mk 1 [104, 105], Frame.mk 2 [0, 255]] [Frame.mk 2 [7]]
        writeAlways writeAlways =
      ([Frame.mk 1 [104, 105], Frame.mk 2 [0, 255]], [Frame.mk 2 [7]]) :=
  C5_relay_lossless [Frame.mk 1 [104, 105], Frame.mk 2 [0, 255]] [Frame.mk 2 [7]]
    writeAlways writeAlways (by decide) (by decide)

/-- C6: for a matched WebSocket upgrade, the backend dial — to
`ws://{host}:{port}{originalPath}`, path unmodified — is the first
action of the handler; if the dial fails the trace is exactly the dial
followed by a 500 response, so the inbound connection is never
upgraded; and an upgrade attempt occurs only when the dial
succeeded. -/
theorem C6_dial_before_upgrade (dialOK : String → Bool) (upgradeOK : Bool)
    (r : Request) (routes : List RedirectConfig) (route : RedirectConfig)
    (hm : matchRoute routes r.urlPath = some route) :
    (handleWebSocket dialOK upgradeOK r routes).head? =
      some (WSEvent.dialAttempt
        (wsTargetString (resolveHost route.host) route.port r.urlPath)) ∧
    (dialOK (wsTargetString (resolveHost route.host) route.port r.urlPath) = false →
      handleWebSocket dialOK upgradeOK r routes =
        [WSEvent.dialAttempt
          (wsTargetString (resolveHost route.host) route.port r.urlPath),
         WSEvent.respond 500]) ∧
    (WSEvent.upgradeAttempt ∈ handleWebSocket dialOK upgradeOK r routes →
      dialOK (wsTargetString (resolveHost route.host) route.port r.urlPath) = true) := by
  rw [handleWebSocket_of_match dialOK upgradeOK r routes route hm]
  simp only [forwardWS]
  cases hd : dialOK (wsTargetString (resolveHost route.host) route.port r.urlPath)
  · simp [hd]
  · cases upgradeOK <;> simp [hd]

/-- C6 exercised: with an unreachable backend, the trace is the dial
attempt followed by a 500, and no upgrade is attempted. -/
theorem C6_dial_before_upgrade_witness :
    handleWebSocket dialNever true
        { urlPath := "/ws/chat", rawQuery := "", host := "h", remoteAddr := "a",
          headers := [] }
        [⟨"/ws", "", 7⟩] =
      [WSEvent.dialAttempt "ws://localhost:7/ws/chat", WSEvent.respond 500] ∧
    WSEvent.upgradeAttempt ∉
      handleWebSocket dialNever true
        { urlPath := "/ws/chat", rawQuery := "", host := "h", remoteAddr := "a",
          headers := [] }
        [⟨"/ws", "", 7⟩] := by
  have h := C6_dial_before_upgrade dialNever true
    { urlPath := "/ws/chat", rawQuery := "", host := "h", remoteAddr := "a",
      headers := [] }
    [⟨"/ws", "", 7⟩] ⟨"/ws", "", 7⟩ (by decide)
  have h2 := h.2.1 rfl
  constructor
  · rw [h2]
    decide
  · rw [h2]
    decide

/-- C7: for a matched route whose host field is the empty string, both
the HTTP forwarder and the WebSocket relay substitute the literal
`localhost` as the target host (empty host with port 9000 forwards to
`localhost:9000`); a non-empty host field is used as given. -/
theorem C7_default_host (urlParse : String → Option URL)
    (transport : OutRequest → Except String Response)
    (dialOK : String → Bool) (upgradeOK : Bool) (r : Request)
    (routes : List RedirectConfig) (route : RedirectConfig)
    (hm : matchRoute routes r.urlPath = some route) :
    (route.host = "" →
      (handleHTTP urlParse transport r routes).targetURLString =
        some (httpTargetString "localhost" route.port) ∧
      wsSelectedURL (handleWebSocket dialOK upgradeOK r routes) =
        some (wsTargetString "localhost" route.port r.urlPath)) ∧
    (¬ route.host = "" →
      (handleHTTP urlParse transport r routes).targetURLString =
        some (httpTargetString route.host route.port) ∧
      wsSelectedURL (handleWebSocket dialOK upgradeOK r routes) =
        some (wsTargetString route.host route.port r.urlPath)) := by
  have hh := handleHTTP_targetURLString urlParse transport r routes
  have hw := handleWebSocket_selectedURL dialOK upgradeOK r routes
  rw [hm] at hh hw
  simp only [Option.map] at hh hw
  constructor
  · intro he
    rw [hh, hw, he]
    exact ⟨rfl, rfl⟩
  · intro he
    rw [hh, hw, resolveHost_of_ne route.host he]
    exact ⟨rfl, rfl⟩

/-- C7 exercised: empty host with port 9000 targets
`http://localhost:9000`; host `api.example.com` with port 5678 targets
`http://api.example.com:5678`. -/
theorem C7_default_host_witness :
    (handleHTTP hostPortParse okTransport
        { urlPath := "/s", rawQuery := "", host := "h", remoteAddr := "a", headers := [] }
        [⟨"/s", "", 9000⟩]).targetURLString = some "http://localhost:9000" ∧
    (handleHTTP hostPortParse okTransport
        { urlPath := "/s", rawQuery := "", host := "h", remoteAddr := "a", headers := [] }
        [⟨"/s", "api.example.com", 5678⟩]).targetURLString =
      some "http://api.example.com:5678" := by
  have h1 := (C7_default_host hostPortParse okTransport dialAlways true
    { urlPath := "/s", rawQuery := "", host := "h", remoteAddr := "a", headers := [] }
    [⟨"/s", "", 9000⟩] ⟨"/s", "", 9000⟩ (by decide)).1 rfl
  have h2 := (C7_default_host hostPortParse okTransport dialAlways true
    { urlPath := "/s", rawQuery := "", host := "h", remoteAddr := "a", headers := [] }
    [⟨"/s", "api.example.com", 5678⟩] ⟨"/s", "api.example.com", 5678⟩
    (by decide)).2 (by decide)
  constructor
  · rw [h1.1]
    decide
  · rw [h2.1]
    decide

/-- C10: the URL dialed for a matched WebSocket upgrade is built from
the resolved host, the route's port and the inbound request path only;
the inbound raw query never influences the handler's behaviour, so it
never reaches the backend (unlike the HTTP forwarding path, which
carries the query through). -/
theorem C10_ws_query_discarded (dialOK : String → Bool) (upgradeOK : Bool)
    (r : Request) (routes : List RedirectConfig) (route : RedirectConfig)
    (q : String) (hm : matchRoute routes r.urlPath = some route) :
    wsSelectedURL (handleWebSocket dialOK upgradeOK r routes) =
      some (wsTargetString (resolveHost route.host) route.port r.urlPath) ∧
    handleWebSocket dialOK upgradeOK { r with rawQuery := q } routes =
      handleWebSocket dialOK upgradeOK r routes := by
  constructor
  · rw [handleWebSocket_selectedURL dialOK upgradeOK r routes, hm]
    rfl
  · exact handleWebSocket_rawQuery_irrelevant dialOK upgradeOK r q routes

/-- C10 exercised: an upgrade request for `/ws/chat` with query
`token=1` dials `ws://localhost:7/ws/chat` — no query — and the
handler's trace is identical for a different query. -/
theorem C10_ws_query_discarded_witness :
    wsSelectedURL
        (handleWebSocket dialAlways true
          { urlPath := "/ws/chat", rawQuery := "token=1", host := "h", remoteAddr := "a",
            headers := [] }
          [⟨"/ws", "", 7⟩]) = some "ws://localhost:7/ws/chat" ∧
    handleWebSocket dialAlways true
        { urlPath := "/ws/chat", rawQuery := "other=2", host := "h", remoteAddr := "a",
          headers := [] }
        [⟨"/ws", "", 7⟩] =
      handleWebSocket dialAlways true
        { urlPath := "/ws/chat", rawQuery := "token=1", host := "h", remoteAddr := "a",
          headers := [] }
        [⟨"/ws", "", 7⟩] := by
  have h := C10_ws_query_discarded dialAlways true
    { urlPath := "/ws/chat", rawQuery := "token=1", host := "h", remoteAddr := "a",
      headers := [] }
    [⟨"/ws", "", 7⟩] ⟨"/ws", "", 7⟩ "other=2" (by decide)
  refine ⟨?_, h.2⟩
  rw [h.1]
  decide

end Router
